import Mathlib

/-!
Verification development for the insulin-pump education prototype
(`insulin_pump_app.py`).  The logical core consists of a synthetic
patient-data generator (`create_patients`) and a threshold advisor
(`recommend_adjustment`).  We give a shallow embedding over ℚ, with the
two pseudo-random generators (Python `random` and NumPy) modelled as
abstract deterministic streams indexed by seed and draw position.
-/

/--
Abstract model of the pseudo-random facilities the program uses.
Python `random` and NumPy `np.random` are deterministic algorithms: once
seeded, the sequence of draws is a pure function of the seed.  We model
them by streams indexed by the seed and by the position of the draw
after seeding:

* `choice seed k n` is the index (into a sequence of length `n`) returned
  by the `k`-th call to `random.choice` after `random.seed seed`;
* `normal seed k` is the `k`-th standard normal deviate drawn from NumPy
  after `np.random.seed seed`, so `np.random.normal mu sigma` returns
  `mu + sigma * normal seed k`;
* `uniform seed k` is the underlying unit-interval deviate of a NumPy
  uniform draw at position `k`, so `np.random.uniform lo hi` returns
  `lo + (hi - lo) * uniform seed k`.

`choice_lt` and `uniform_mem` record the interface guarantees of the
libraries: `random.choice` returns an element of the sequence, and
`np.random.uniform lo hi` samples the half-open interval `[lo, hi)`.
-/
structure RandomSource where
  choice : Nat → Nat → Nat → Nat
  normal : Nat → Nat → ℚ
  uniform : Nat → Nat → ℚ
  choice_lt : ∀ seed k n, 0 < n → choice seed k n < n
  uniform_mem : ∀ seed k, 0 ≤ uniform seed k ∧ uniform seed k < 1

/--
The process-wide state of the two pseudo-random generators before a call
to `create_patients` (whatever seeding and draws earlier code performed).
`create_patients` reseeds both generators to the constant 42 on entry
(lines 138–139 of the source), so this prior state is discarded.
-/
structure RngProcessState where
  pyState : Nat
  npState : Nat
deriving DecidableEq

/-- Scalar counterpart of `np.clip x lo hi`: `np.minimum hi (np.maximum x lo)`. -/
def npClip (x lo hi : ℚ) : ℚ := min hi (max x lo)

/-- Counterpart of `np.mean` on a list: sum divided by length (division by
zero yields 0 in ℚ; the program only takes means of nonempty lists). -/
def npMean (xs : List ℚ) : ℚ := xs.sum / xs.length

/-- Container for one month of synthetic data (`MonthlyData` dataclass). -/
structure MonthlyData where
  bg_values : List ℚ
  basal_units : ℚ
  bolus_units : ℚ
  notes : String
deriving DecidableEq

/-- A synthetic insulin pump user (`Patient` dataclass).  The Python field
`months : Dict[int, MonthlyData]` is modelled as an association list in
insertion order; Python dict lookup `months[m]` raising `KeyError` on a
missing key becomes `List.lookup` returning `none`. -/
structure Patient where
  id : Nat
  name : String
  pump_type : String
  months : List (ℤ × MonthlyData)
deriving DecidableEq

/-- `Patient.average_bg`: average blood glucose for a given month
(`none` models the `KeyError` on a month index that is not a key). -/
def Patient.average_bg (p : Patient) (month_index : ℤ) : Option ℚ :=
  (p.months.lookup month_index).map (fun md => npMean md.bg_values)

/-- `Patient.metrics_for_month`: average BG, basal units and bolus units
for the month (`none` models the `KeyError` on a missing month index). -/
def Patient.metrics_for_month (p : Patient) (month_index : ℤ) :
    Option (ℚ × ℚ × ℚ) :=
  (p.months.lookup month_index).map
    (fun md => (npMean md.bg_values, md.basal_units, md.bolus_units))

def first_names : List String :=
  ["Alex", "Casey", "Jordan", "Taylor", "Morgan",
   "Robin", "Blake", "Sydney", "Jamie", "Avery"]

def last_names : List String :=
  ["Nguyen", "Smith", "Patel", "Kim", "Garcia",
   "Brown", "Hernandez", "Lee", "Johnson", "Davis"]

def pump_choices : List String :=
  ["Omnipod", "Tandem t:slim X2", "Medtronic 780G"]

def month_names : List String :=
  ["January", "February", "March", "April", "May", "June",
   "July", "August", "September", "October", "November", "December"]

/-- `_generate_name`: picks a given name and a family name with two
`random.choice` calls; `k` is the position of the first of the two draws
in the Python `random` stream. -/
def _generate_name (src : RandomSource) (seed k : Nat) : String :=
  (first_names.getD (src.choice seed k first_names.length) "") ++ " " ++
    (last_names.getD (src.choice seed (k + 1) last_names.length) "")

/-- The dawn-phenomenon note (lines 170–173). -/
def dawn_note (month_name : String) : String :=
  "Observed higher fasting glucose in " ++ month_name ++
    ". Increased early‑morning basal to address the dawn phenomenon【23†L633-L641】."

/-- The exercise note (lines 176–179). -/
def exercise_note (month_name : String) : String :=
  "Regular aerobic exercise in " ++ month_name ++
    " lowered glucose levels. Temporary basal reduction of 50% during workouts was applied【37†L9-L17】."

/-- The illness note (lines 182–185). -/
def illness_note (month_name : String) : String :=
  "Illness in " ++ month_name ++
    " increased insulin requirements. Temporary basal increased by 30% as per sick‑day protocol【38†L19-L25】."

/-- The generic routine note (line 187). -/
def routine_note (month_name : String) : String :=
  "Routine month of pump therapy in " ++ month_name ++ ". Continued monitoring."

/-- Narrative note selection, lines 166–187 of the source: a priority
chain keyed on the month index, the (pump-adjusted) base mean, and the
mean of the clipped monthly readings. -/
def composeNote (m_idx : Nat) (base_mean : ℚ) (bg_values : List ℚ) : String :=
  let month_name := month_names.getD m_idx ""
  if (m_idx = 0 ∨ m_idx = 1) ∧ 150 < base_mean then
    dawn_note month_name
  else if (m_idx = 3 ∨ m_idx = 4 ∨ m_idx = 5) ∧ npMean bg_values < 120 then
    exercise_note month_name
  else if m_idx = 9 ∧ 170 < npMean bg_values then
    illness_note month_name
  else
    routine_note month_name

/-- The base mean blood glucose of a patient-month, lines 154–157:
`140 + np.random.normal 0 10`, lowered by 5 when the pump is not an
Omnipod.  The NumPy draw for it is the first of the 33 monthly draws,
at position `396 * pid + 33 * m_idx`. -/
def monthBaseMean (src : RandomSource) (seed : Nat) (pump : String)
    (pid m_idx : Nat) : ℚ :=
  let base_mean0 := 140 + 10 * src.normal seed (396 * pid + 33 * m_idx)
  if pump ≠ "Omnipod" then base_mean0 - 5 else base_mean0

/--
One month of synthetic data for patient `pid`, month `m_idx`
(the body of the inner loop, lines 150–194).  Each patient consumes
`12 * 33 = 396` NumPy draws (per month: 1 for the base mean, 30 for the
daily readings, 1 for basal, 1 for bolus), so the monthly draws start at
position `k = 396 * pid + 33 * m_idx` of the NumPy stream:

* `base_mean = 140 + np.random.normal 0 10`, minus 5 if the pump is not
  an Omnipod;
* 30 daily readings `np.random.normal base_mean 20`, clipped to
  `[50, 350]`;
* `basal_units = np.random.uniform 18 40`;
* `bolus_units = np.random.uniform 15 35`;
* a note composed by the priority chain `composeNote`.
-/
def monthFor (src : RandomSource) (seed : Nat) (pump : String) (pid m_idx : Nat) :
    MonthlyData :=
  let k := 396 * pid + 33 * m_idx
  let base_mean := monthBaseMean src seed pump pid m_idx
  let bg_values :=
    (List.range 30).map
      (fun d => npClip (base_mean + 20 * src.normal seed (k + 1 + d)) 50 350)
  let basal_units := 18 + (40 - 18) * src.uniform seed (k + 31)
  let bolus_units := 15 + (35 - 15) * src.uniform seed (k + 32)
  { bg_values := bg_values
    basal_units := basal_units
    bolus_units := bolus_units
    notes := composeNote m_idx base_mean bg_values }

/-- One synthetic patient (the body of the outer loop, lines 146–195).
Each patient consumes three `random.choice` draws, in order: given name,
family name, pump type. -/
def mkPatient (src : RandomSource) (seed : Nat) (pid : Nat) : Patient :=
  let name := _generate_name src seed (3 * pid)
  let pump := pump_choices.getD (src.choice seed (3 * pid + 2) pump_choices.length) ""
  { id := pid
    name := name
    pump_type := pump
    months := (List.range 12).map
      (fun (m_idx : Nat) => ((m_idx : ℤ), monthFor src seed pump pid m_idx)) }

/-- The generator body after seeding: `num_patients` patients, each with
12 months of data, all draws taken from the streams for `seed`. -/
def createPatientsSeeded (src : RandomSource) (seed : Nat) (num_patients : Nat) :
    List Patient :=
  (List.range num_patients).map (mkPatient src seed)

/-- `create_patients`: lines 114–196.  The function begins with
`random.seed(42)` and `np.random.seed(42)`, resetting both generators to
the fixed seed 42, so the prior generator state `prior` is discarded and
every draw comes from the seed-42 streams. -/
def create_patients (src : RandomSource) (_prior : RngProcessState)
    (num_patients : Nat) : List Patient :=
  createPatientsSeeded src 42 num_patients

/-- The above-target recommendation (lines 225–229). -/
def increase_recommendation : String :=
  "Average blood glucose is above target. Consider increasing basal rates in the early morning or adjusting the insulin‑to‑carbohydrate ratio for meals. Review bolus timing to ensure pre‑meal dosing."

/-- The below-target recommendation (lines 231–235). -/
def decrease_recommendation : String :=
  "Average blood glucose is below target. Reduce basal delivery or increase carbohydrate intake at snacks. Consider setting a temporary basal decrease during times of increased activity."

/-- The within-target recommendation (lines 237–240). -/
def maintain_recommendation : String :=
  "Average blood glucose is within target range. Continue current pump settings while maintaining regular monitoring."

/-- `recommend_adjustment`, lines 199–241: classify the monthly average
blood glucose (`none` models the `KeyError` propagated from
`metrics_for_month` on an invalid month index). -/
def recommend_adjustment (patient : Patient) (month_index : ℤ) : Option String :=
  (patient.metrics_for_month month_index).map
    (fun m =>
      let avg_bg := m.1
      if 180 < avg_bg then increase_recommendation
      else if avg_bg < 80 then decrease_recommendation
      else maintain_recommendation)

/-- A degenerate but well-formed random source, used to instantiate the
universally quantified theorems at concrete inputs: every stream is
constantly zero. -/
def zeroSource : RandomSource where
  choice := fun _ _ _ => 0
  normal := fun _ _ => 0
  uniform := fun _ _ => 0
  choice_lt := fun _ _ _ h => h
  uniform_mem := fun _ _ => by norm_num

/-- Default patient for safe list indexing in theorem statements. -/
def defaultPatient : Patient :=
  { id := 0, name := "", pump_type := "", months := [] }

/-! ## Helper lemmas -/

/-- Looking up an integer key in the association list built from
`List.range' s n` hits the entry for `m.toNat` exactly when
`s ≤ m < s + n`. -/
theorem lookup_range'_map {β : Type} (f : Nat → β) (s n : Nat) (m : ℤ) :
    (((List.range' s n).map (fun (i : Nat) => ((i : ℤ), f i))).lookup m)
      = if s ≤ m ∧ m < s + n then some (f m.toNat) else none := by
  induction n generalizing s with
  | zero =>
    rw [if_neg (by omega)]
    simp [List.range']
  | succ n ih =>
    rw [List.range'_succ]
    simp only [List.map_cons, List.lookup_cons]
    rcases eq_or_ne m (s : ℤ) with h | h
    · subst h
      rw [if_pos (by constructor; exact le_refl _; push_cast; omega)]
      simp
    · rw [show (m == (s : ℤ)) = false from beq_eq_false_iff_ne.mpr h]
      show ((List.range' (s + 1) n).map (fun (i : Nat) => ((i : ℤ), f i))).lookup m = _
      rw [ih (s + 1)]
      by_cases h2 : (s : ℤ) ≤ m ∧ m < (s : ℤ) + (n : ℤ) + 1
      · rw [if_pos (by push_cast; omega), if_pos (by push_cast; omega)]
      · rw [if_neg (by push_cast; omega), if_neg (by push_cast at h2 ⊢; omega)]

/-- Specialisation of `lookup_range'_map` to `List.range n`. -/
theorem lookup_range_map {β : Type} (f : Nat → β) (n : Nat) (m : ℤ) :
    (((List.range n).map (fun (i : Nat) => ((i : ℤ), f i))).lookup m)
      = if 0 ≤ m ∧ m < n then some (f m.toNat) else none := by
  rw [List.range_eq_range', lookup_range'_map]
  norm_num

/-- Unfolding the `months` field of a generated patient. -/
theorem mkPatient_months (src : RandomSource) (seed pid : Nat) :
    (mkPatient src seed pid).months
      = (List.range 12).map
          (fun (m_idx : Nat) =>
            ((m_idx : ℤ),
              monthFor src seed (mkPatient src seed pid).pump_type pid m_idx)) := rfl

/-- The month dictionary of a generated patient has exactly the keys 0–11. -/
theorem mkPatient_months_lookup (src : RandomSource) (seed pid : Nat) (m : ℤ) :
    (mkPatient src seed pid).months.lookup m
      = if 0 ≤ m ∧ m < 12
        then some (monthFor src seed (mkPatient src seed pid).pump_type pid m.toNat)
        else none := by
  rw [mkPatient_months, lookup_range_map]
  norm_num

/-- The readings of a generated month, unfolded. -/
theorem monthFor_bg_values (src : RandomSource) (seed : Nat) (pump : String)
    (pid m_idx : Nat) :
    (monthFor src seed pump pid m_idx).bg_values
      = (List.range 30).map
          (fun (d : Nat) =>
            npClip
              (monthBaseMean src seed pump pid m_idx
                + 20 * src.normal seed (396 * pid + 33 * m_idx + 1 + d)) 50 350) := rfl

/-! ## The claims -/

/-- Claim C1: generation is deterministic.  For every count `n` and the
fixed seed, two runs of the generator — whatever the prior states of the
two pseudo-random generators — produce identical patient datasets: the
same names, pump types, readings, basal/bolus scalars and notes, element
for element. -/
theorem claim1_generation_deterministic (src : RandomSource)
    (st st' : RngProcessState) (n : Nat) :
    (create_patients src st n).length = (create_patients src st' n).length ∧
    (create_patients src st n).map Patient.name
      = (create_patients src st' n).map Patient.name ∧
    (create_patients src st n).map Patient.pump_type
      = (create_patients src st' n).map Patient.pump_type ∧
    (create_patients src st n).map (fun p => p.months.map (fun x => x.2.bg_values))
      = (create_patients src st' n).map (fun p => p.months.map (fun x => x.2.bg_values)) ∧
    (create_patients src st n).map
        (fun p => p.months.map (fun x => (x.2.basal_units, x.2.bolus_units)))
      = (create_patients src st' n).map
          (fun p => p.months.map (fun x => (x.2.basal_units, x.2.bolus_units))) ∧
    (create_patients src st n).map (fun p => p.months.map (fun x => x.2.notes))
      = (create_patients src st' n).map (fun p => p.months.map (fun x => x.2.notes)) :=
  ⟨rfl, rfl, rfl, rfl, rfl, rfl⟩

/-- Claim C9: the seed is not actually a parameter of the generator.
`create_patients` reseeds both pseudo-random generators to the constant
42 on every call, so its output is independent of whatever generator
state was established before the call, and every call returns exactly
the seed-42 dataset. -/
theorem claim9_seed_fixed (src : RandomSource) (st st' : RngProcessState)
    (n : Nat) :
    create_patients src st n = create_patients src st' n ∧
    create_patients src st n = createPatientsSeeded src 42 n :=
  ⟨rfl, rfl⟩

/-- Claim C2: the narrative note for a month is selected by a fixed
priority chain: (1) month index 0 or 1 with base mean above 150 gives the
dawn-phenomenon note; (2) else month index 3, 4 or 5 with monthly sample
mean below 120 gives the exercise note; (3) else month index 9 with
monthly sample mean above 170 gives the illness note; (4) else the
generic routine note.  A January month with base mean 160 yields the
dawn-phenomenon note regardless of the monthly sample mean, rule 1 tests
the base mean while rules 2 and 3 test the monthly sample mean, and every
note of every generated month is composed by exactly this chain from its base
mean and readings. -/
theorem claim2_note_priority_chain (m_idx : Nat) (base_mean : ℚ)
    (bg_values : List ℚ) :
    ((m_idx = 0 ∨ m_idx = 1) ∧ 150 < base_mean →
      composeNote m_idx base_mean bg_values
        = dawn_note (month_names.getD m_idx "")) ∧
    (¬((m_idx = 0 ∨ m_idx = 1) ∧ 150 < base_mean) →
      (m_idx = 3 ∨ m_idx = 4 ∨ m_idx = 5) ∧ npMean bg_values < 120 →
      composeNote m_idx base_mean bg_values
        = exercise_note (month_names.getD m_idx "")) ∧
    (¬((m_idx = 0 ∨ m_idx = 1) ∧ 150 < base_mean) →
      ¬((m_idx = 3 ∨ m_idx = 4 ∨ m_idx = 5) ∧ npMean bg_values < 120) →
      m_idx = 9 ∧ 170 < npMean bg_values →
      composeNote m_idx base_mean bg_values
        = illness_note (month_names.getD m_idx "")) ∧
    (¬((m_idx = 0 ∨ m_idx = 1) ∧ 150 < base_mean) →
      ¬((m_idx = 3 ∨ m_idx = 4 ∨ m_idx = 5) ∧ npMean bg_values < 120) →
      ¬(m_idx = 9 ∧ 170 < npMean bg_values) →
      composeNote m_idx base_mean bg_values
        = routine_note (month_names.getD m_idx "")) ∧
    (∀ bg2 : List ℚ, composeNote 0 160 bg2 = dawn_note "January") ∧
    (∀ (src : RandomSource) (st : RngProcessState) (n : Nat) (p : Patient)
        (mi : ℤ) (md : MonthlyData),
      p ∈ create_patients src st n → (mi, md) ∈ p.months →
      ∃ (m : Nat) (pid : Nat), mi = (m : ℤ) ∧
        md.notes = composeNote m (monthBaseMean src 42 p.pump_type pid m)
          md.bg_values) := by
  refine ⟨?_, ?_, ?_, ?_, ?_, ?_⟩
  · intro h1
    simp only [composeNote]
    rw [if_pos h1]
  · intro h1 h2
    simp only [composeNote]
    rw [if_neg h1, if_pos h2]
  · intro h1 h2 h3
    simp only [composeNote]
    rw [if_neg h1, if_neg h2, if_pos h3]
  · intro h1 h2 h3
    simp only [composeNote]
    rw [if_neg h1, if_neg h2, if_neg h3]
  · intro bg2
    simp only [composeNote]
    rw [if_pos (by norm_num)]
    rfl
  · intro src st n p mi md hp hm
    simp only [create_patients, createPatientsSeeded] at hp
    obtain ⟨pid, hpid, rfl⟩ := List.mem_map.mp hp
    rw [mkPatient_months] at hm
    obtain ⟨m, hm12, heq⟩ := List.mem_map.mp hm
    obtain ⟨rfl, rfl⟩ := Prod.mk.injEq .. |>.mp heq
    exact ⟨m, pid, rfl, rfl⟩

/-- Claim C3: the advisor computes the arithmetic mean of the selected
monthly readings and classifies it: strictly above 180 gives the
above-target ("increase insulin") recommendation, strictly below 80 the
below-target ("decrease insulin") recommendation, and otherwise the
within-target ("maintain settings") recommendation; in particular
averages 200, 70, 130 give the above-, below-, within-target strings. -/
theorem claim3_advisor_thresholds (p : Patient) (m : ℤ) (md : MonthlyData)
    (hm : p.months.lookup m = some md) :
    (180 < npMean md.bg_values →
      recommend_adjustment p m = some increase_recommendation) ∧
    (npMean md.bg_values < 80 →
      recommend_adjustment p m = some decrease_recommendation) ∧
    (80 ≤ npMean md.bg_values ∧ npMean md.bg_values ≤ 180 →
      recommend_adjustment p m = some maintain_recommendation) ∧
    (npMean md.bg_values = 200 →
      recommend_adjustment p m = some increase_recommendation) ∧
    (npMean md.bg_values = 70 →
      recommend_adjustment p m = some decrease_recommendation) ∧
    (npMean md.bg_values = 130 →
      recommend_adjustment p m = some maintain_recommendation) := by
  unfold recommend_adjustment Patient.metrics_for_month
  rw [hm]
  simp only [Option.map_some']
  refine ⟨fun h => ?_, fun h => ?_, fun h => ?_, fun h => ?_, fun h => ?_,
    fun h => ?_⟩
  · rw [if_pos h]
  · rw [if_neg (by linarith), if_pos h]
  · rw [if_neg (by linarith [h.2]), if_neg (by linarith [h.1])]
  · rw [h]
    norm_num
  · rw [h]
    norm_num
  · rw [h]
    norm_num

/-- Claim C10: the advisor result depends only on the selected monthly
readings — two patients whose records for month `m` hold the same
readings receive the same recommendation, whatever their names, pump
types, scalars, notes or other months. -/
theorem claim10_advisor_depends_only_on_readings (p q : Patient) (m : ℤ)
    (mdp mdq : MonthlyData) (hp : p.months.lookup m = some mdp)
    (hq : q.months.lookup m = some mdq)
    (h : mdp.bg_values = mdq.bg_values) :
    recommend_adjustment p m = recommend_adjustment q m := by
  unfold recommend_adjustment Patient.metrics_for_month
  rw [hp, hq]
  simp only [Option.map_some']
  rw [h]

/-- Claim C4: every generated patient has exactly 12 monthly records —
one for each month index 0 through 11 — and every monthly record holds
exactly 30 daily glucose readings. -/
theorem claim4_twelve_months_thirty_readings (src : RandomSource)
    (st : RngProcessState) (n : Nat) (p : Patient)
    (hp : p ∈ create_patients src st n) :
    p.months.map Prod.fst = (List.range 12).map (fun (i : Nat) => (i : ℤ)) ∧
    p.months.length = 12 ∧
    ∀ x ∈ p.months, x.2.bg_values.length = 30 := by
  simp only [create_patients, createPatientsSeeded] at hp
  obtain ⟨pid, hpid, rfl⟩ := List.mem_map.mp hp
  refine ⟨?_, ?_, ?_⟩
  · rw [mkPatient_months, List.map_map]
    rfl
  · rw [mkPatient_months, List.length_map, List.length_range]
  · intro x hx
    rw [mkPatient_months] at hx
    obtain ⟨m, hm12, rfl⟩ := List.mem_map.mp hx
    rw [monthFor_bg_values, List.length_map, List.length_range]

/-- Claim C5: every daily glucose reading of every generated month lies
in the closed interval [50, 350]. -/
theorem claim5_readings_clipped (src : RandomSource) (st : RngProcessState)
    (n : Nat) (p : Patient) (mi : ℤ) (md : MonthlyData) (r : ℚ)
    (hp : p ∈ create_patients src st n) (hm : (mi, md) ∈ p.months)
    (hr : r ∈ md.bg_values) :
    50 ≤ r ∧ r ≤ 350 := by
  simp only [create_patients, createPatientsSeeded] at hp
  obtain ⟨pid, hpid, rfl⟩ := List.mem_map.mp hp
  rw [mkPatient_months] at hm
  obtain ⟨m, hm12, heq⟩ := List.mem_map.mp hm
  obtain ⟨rfl, rfl⟩ := Prod.mk.injEq .. |>.mp heq
  rw [monthFor_bg_values] at hr
  obtain ⟨d, hd, rfl⟩ := List.mem_map.mp hr
  unfold npClip
  exact ⟨le_min (by norm_num) (le_max_right _ _), min_le_left _ _⟩

/-- Claim C6: the basal scalar of every generated month lies in [18, 40] and
its bolus scalar lies in [15, 35]. -/
theorem claim6_scalar_ranges (src : RandomSource) (st : RngProcessState)
    (n : Nat) (p : Patient) (mi : ℤ) (md : MonthlyData)
    (hp : p ∈ create_patients src st n) (hm : (mi, md) ∈ p.months) :
    (18 ≤ md.basal_units ∧ md.basal_units ≤ 40) ∧
    (15 ≤ md.bolus_units ∧ md.bolus_units ≤ 35) := by
  simp only [create_patients, createPatientsSeeded] at hp
  obtain ⟨pid, hpid, rfl⟩ := List.mem_map.mp hp
  rw [mkPatient_months] at hm
  obtain ⟨m, hm12, heq⟩ := List.mem_map.mp hm
  obtain ⟨rfl, rfl⟩ := Prod.mk.injEq .. |>.mp heq
  obtain ⟨hu0, hu1⟩ :=
    src.uniform_mem 42 (396 * pid + 33 * m + 31)
  obtain ⟨hv0, hv1⟩ :=
    src.uniform_mem 42 (396 * pid + 33 * m + 32)
  constructor
  · constructor
    · show 18 ≤ 18 + (40 - 18) * src.uniform 42 (396 * pid + 33 * m + 31)
      nlinarith
    · show 18 + (40 - 18) * src.uniform 42 (396 * pid + 33 * m + 31) ≤ 40
      nlinarith
  · constructor
    · show 15 ≤ 15 + (35 - 15) * src.uniform 42 (396 * pid + 33 * m + 32)
      nlinarith
    · show 15 + (35 - 15) * src.uniform 42 (396 * pid + 33 * m + 32) ≤ 35
      nlinarith

/-- Claim C7: the advisor is total and side-effect-free on month indices
0–11 (the embedding is purely functional, so no mutation exists): for
every generated patient it returns a recommendation on every month index
in 0–11, and fails (the `KeyError`, modelled as `none`) on every month
index outside 0–11. -/
theorem claim7_advisor_total_on_valid_months (src : RandomSource)
    (st : RngProcessState) (n : Nat) (p : Patient)
    (hp : p ∈ create_patients src st n) (m : ℤ) :
    (0 ≤ m ∧ m < 12 → (recommend_adjustment p m).isSome = true) ∧
    ((m < 0 ∨ 12 ≤ m) → recommend_adjustment p m = none) := by
  simp only [create_patients, createPatientsSeeded] at hp
  obtain ⟨pid, hpid, rfl⟩ := List.mem_map.mp hp
  unfold recommend_adjustment Patient.metrics_for_month
  rw [mkPatient_months_lookup]
  constructor
  · intro h
    rw [if_pos h]
    rfl
  · intro h
    rw [if_neg (by omega)]
    rfl

/-- Claim C8: for each patient-month the generator draws a base mean of
the form 140 + 10·z (a normal draw centred at 140 with standard
deviation 10), subtracts 5 from it exactly when the pump is not the
baseline Omnipod, draws the 30 daily readings as base mean + 20·zᵢ from
fresh normal deviates before clipping each to [50, 350], and
independently draws the basal and bolus scalars as affine images
18 + (40−18)·u and 15 + (35−15)·v of fresh uniform deviates; generation
never fails: it returns exactly `n` patients and month `m_idx` of any of
them is present. -/
theorem claim8_sampling_procedure (src : RandomSource)
    (seed n pid m_idx : Nat) (hpid : pid < n) (hm : m_idx < 12) :
    (createPatientsSeeded src seed n).length = n ∧
    ((createPatientsSeeded src seed n).getD pid defaultPatient).months.lookup
        (m_idx : ℤ)
      = some (monthFor src seed
          ((createPatientsSeeded src seed n).getD pid defaultPatient).pump_type
          pid m_idx) ∧
    (∀ pump : String,
      monthBaseMean src seed pump pid m_idx
        = (140 + 10 * src.normal seed (396 * pid + 33 * m_idx))
            - (if pump ≠ "Omnipod" then 5 else 0) ∧
      (monthFor src seed pump pid m_idx).bg_values
        = (List.range 30).map
            (fun (d : Nat) =>
              npClip
                (monthBaseMean src seed pump pid m_idx
                  + 20 * src.normal seed (396 * pid + 33 * m_idx + 1 + d))
                50 350) ∧
      (monthFor src seed pump pid m_idx).basal_units
        = 18 + (40 - 18) * src.uniform seed (396 * pid + 33 * m_idx + 31) ∧
      (monthFor src seed pump pid m_idx).bolus_units
        = 15 + (35 - 15) * src.uniform seed (396 * pid + 33 * m_idx + 32) ∧
      (monthFor src seed pump pid m_idx).notes
        = composeNote m_idx (monthBaseMean src seed pump pid m_idx)
            ((monthFor src seed pump pid m_idx).bg_values)) := by
  have hget : (createPatientsSeeded src seed n).getD pid defaultPatient
      = mkPatient src seed pid := by
    unfold createPatientsSeeded
    rw [List.getD_eq_getElem?_getD, List.getElem?_map, List.getElem?_range hpid]
    rfl
  refine ⟨?_, ?_, ?_⟩
  · unfold createPatientsSeeded
    rw [List.length_map, List.length_range]
  · rw [hget, mkPatient_months_lookup, if_pos (by omega)]
    norm_num
  · intro pump
    refine ⟨?_, rfl, rfl, rfl, rfl⟩
    unfold monthBaseMean
    by_cases h : pump ≠ "Omnipod"
    · rw [if_pos h, if_pos h]
    · rw [if_neg h, if_neg h]
      ring

/-! ## Concrete instantiations -/

/-- The first patient generated over the constantly-zero random source is
a member of the one-patient dataset. -/
theorem mkPatient_mem_one :
    mkPatient zeroSource 42 0 ∈ create_patients zeroSource ⟨0, 0⟩ 1 := by
  simp only [create_patients, createPatientsSeeded]
  exact List.mem_map.mpr ⟨0, by simp, rfl⟩

/-- Witness for C2: at month index 0 (January) with base mean 160 and a
single reading of 90, the chain yields the dawn-phenomenon note. -/
theorem claim2_witness :
    composeNote 0 160 [90] = dawn_note (month_names.getD 0 "") :=
  (claim2_note_priority_chain 0 160 [90]).1 ⟨Or.inl rfl, by norm_num⟩

/-- Witness for C3: a month averaging 200 receives the above-target
recommendation. -/
theorem claim3_witness :
    recommend_adjustment ⟨0, "A", "Omnipod", [((0 : ℤ), ⟨[200], 20, 20, ""⟩)]⟩ 0
      = some increase_recommendation :=
  (claim3_advisor_thresholds ⟨0, "A", "Omnipod", [((0 : ℤ), ⟨[200], 20, 20, ""⟩)]⟩
      0 ⟨[200], 20, 20, ""⟩ rfl).1 (by norm_num [npMean])

/-- Witness for C4 at the first generated patient of a one-patient run. -/
theorem claim4_witness :
    (mkPatient zeroSource 42 0).months.map Prod.fst
      = (List.range 12).map (fun (i : Nat) => (i : ℤ)) ∧
    (mkPatient zeroSource 42 0).months.length = 12 ∧
    ∀ x ∈ (mkPatient zeroSource 42 0).months, x.2.bg_values.length = 30 :=
  claim4_twelve_months_thirty_readings zeroSource ⟨0, 0⟩ 1
    (mkPatient zeroSource 42 0) mkPatient_mem_one

/-- Witness for C5: the first reading of the first generated month over
the zero source evaluates to 140, which lies in [50, 350]. -/
theorem claim5_witness : 50 ≤ (140 : ℚ) ∧ (140 : ℚ) ≤ 350 :=
  claim5_readings_clipped zeroSource ⟨0, 0⟩ 1 (mkPatient zeroSource 42 0) 0
    (monthFor zeroSource 42 (mkPatient zeroSource 42 0).pump_type 0 0) 140
    mkPatient_mem_one
    (by
      rw [mkPatient_months]
      exact List.mem_map.mpr ⟨0, by simp, rfl⟩)
    (by
      rw [monthFor_bg_values]
      refine List.mem_map.mpr ⟨0, by simp, ?_⟩
      have hpump : (mkPatient zeroSource 42 0).pump_type = "Omnipod" := rfl
      rw [hpump]
      have hbm : monthBaseMean zeroSource 42 "Omnipod" 0 0 = 140 := by
        simp only [monthBaseMean]
        rw [if_neg (fun hh => hh rfl)]
        norm_num [zeroSource]
      rw [hbm]
      norm_num [zeroSource, npClip, min_def, max_def])

/-- Witness for C6 at the first generated month of the first patient. -/
theorem claim6_witness :
    (18 ≤ (monthFor zeroSource 42 (mkPatient zeroSource 42 0).pump_type 0 0).basal_units ∧
      (monthFor zeroSource 42 (mkPatient zeroSource 42 0).pump_type 0 0).basal_units ≤ 40) ∧
    (15 ≤ (monthFor zeroSource 42 (mkPatient zeroSource 42 0).pump_type 0 0).bolus_units ∧
      (monthFor zeroSource 42 (mkPatient zeroSource 42 0).pump_type 0 0).bolus_units ≤ 35) :=
  claim6_scalar_ranges zeroSource ⟨0, 0⟩ 1 (mkPatient zeroSource 42 0) 0
    (monthFor zeroSource 42 (mkPatient zeroSource 42 0).pump_type 0 0)
    mkPatient_mem_one
    (by
      rw [mkPatient_months]
      exact List.mem_map.mpr ⟨0, by simp, rfl⟩)

/-- Witness for C7: month index 0 is answered for the first generated
patient. -/
theorem claim7_witness :
    (recommend_adjustment (mkPatient zeroSource 42 0) 0).isSome = true :=
  (claim7_advisor_total_on_valid_months zeroSource ⟨0, 0⟩ 1
      (mkPatient zeroSource 42 0) mkPatient_mem_one 0).1 (by norm_num)

/-- Witness for C8 at the zero source, one patient, month 0. -/
theorem claim8_witness :
    (createPatientsSeeded zeroSource 42 1).length = 1 ∧
    ((createPatientsSeeded zeroSource 42 1).getD 0 defaultPatient).months.lookup
        ((0 : Nat) : ℤ)
      = some (monthFor zeroSource 42
          ((createPatientsSeeded zeroSource 42 1).getD 0 defaultPatient).pump_type
          0 0) ∧
    (∀ pump : String,
      monthBaseMean zeroSource 42 pump 0 0
        = (140 + 10 * zeroSource.normal 42 (396 * 0 + 33 * 0))
            - (if pump ≠ "Omnipod" then 5 else 0) ∧
      (monthFor zeroSource 42 pump 0 0).bg_values
        = (List.range 30).map
            (fun (d : Nat) =>
              npClip
                (monthBaseMean zeroSource 42 pump 0 0
                  + 20 * zeroSource.normal 42 (396 * 0 + 33 * 0 + 1 + d))
                50 350) ∧
      (monthFor zeroSource 42 pump 0 0).basal_units
        = 18 + (40 - 18) * zeroSource.uniform 42 (396 * 0 + 33 * 0 + 31) ∧
      (monthFor zeroSource 42 pump 0 0).bolus_units
        = 15 + (35 - 15) * zeroSource.uniform 42 (396 * 0 + 33 * 0 + 32) ∧
      (monthFor zeroSource 42 pump 0 0).notes
        = composeNote 0 (monthBaseMean zeroSource 42 pump 0 0)
            ((monthFor zeroSource 42 pump 0 0).bg_values)) :=
  claim8_sampling_procedure zeroSource 42 1 0 0 (by norm_num) (by norm_num)

/-- Witness for C10: two patients that differ in id, name, pump type,
scalars, notes and other months, but hold the same readings for month 0,
receive the same recommendation. -/
theorem claim10_witness :
    recommend_adjustment ⟨0, "A", "Omnipod", [((0 : ℤ), ⟨[100], 20, 20, "x"⟩)]⟩ 0
      = recommend_adjustment
          ⟨1, "B", "Tandem t:slim X2",
            [((0 : ℤ), ⟨[100], 30, 31, "y"⟩), ((1 : ℤ), ⟨[220], 25, 26, "z"⟩)]⟩ 0 :=
  claim10_advisor_depends_only_on_readings
    ⟨0, "A", "Omnipod", [((0 : ℤ), ⟨[100], 20, 20, "x"⟩)]⟩
    ⟨1, "B", "Tandem t:slim X2",
      [((0 : ℤ), ⟨[100], 30, 31, "y"⟩), ((1 : ℤ), ⟨[220], 25, 26, "z"⟩)]⟩
    0 ⟨[100], 20, 20, "x"⟩ ⟨[100], 30, 31, "y"⟩ rfl rfl rfl
